import Mathlib

/-!
# Verification of the load-balancer NAT pool resource

Shallow embedding of `azurestack/resource_arm_loadbalancer_nat_pool.go`:
the create/update, read and delete reconcilers for an inbound NAT pool
sub-resource of an Azure load balancer, together with the element builder
`expandAzureRmLoadBalancerNatPool`.

Go pointers are embedded as `Option`; dereferencing `none` is a panic,
modelled by a distinct `Outcome.panic` result.  Remote calls
(fetch, submit, completion wait, re-fetch, provisioning-state poll) are
embedded as an environment record supplying each call's result, and the
sequence of external effects an execution performs (lock, unlock, remote
calls) is recorded as a trace of events.
-/

namespace NatPool

/-- `network.SubResource`: a reference carrying only an `ID` pointer. -/
structure SubResource where
  id : Option String
  deriving Repr, DecidableEq

/-- `network.InboundNatPoolPropertiesFormat` (the fields this resource uses). -/
structure InboundNatPoolProps where
  protocol : String
  frontendPortRangeStart : Option Int
  frontendPortRangeEnd : Option Int
  backendPort : Option Int
  frontendIPConfiguration : Option SubResource
  deriving Repr, DecidableEq

/-- `network.InboundNatPool`: a named element of the parent's NAT-pool collection. -/
structure InboundNatPool where
  name : Option String
  id : Option String
  props : Option InboundNatPoolProps
  deriving Repr, DecidableEq

/-- `network.FrontendIPConfiguration` (the fields this resource consults). -/
structure FrontendIPConfig where
  name : Option String
  id : Option String
  deriving Repr, DecidableEq

/-- `network.LoadBalancerPropertiesFormat` (the collections this resource touches). -/
structure LoadBalancerProps where
  inboundNatPools : Option (List InboundNatPool)
  frontendIPConfigurations : Option (List FrontendIPConfig)
  deriving Repr, DecidableEq

/-- `network.LoadBalancer`: the parent aggregate. -/
structure LoadBalancer where
  id : Option String
  props : Option LoadBalancerProps
  deriving Repr, DecidableEq

/-- The desired state held in `*schema.ResourceData`: the schema fields the
reconcilers read with `d.Get`, plus the resource identifier set by `d.SetId`. -/
structure ResourceData where
  rid : String
  name : String
  loadbalancerId : String
  protocol : String
  frontendPortStart : Int
  frontendPortEnd : Int
  backendPort : Int
  frontendIpConfigurationName : String
  deriving Repr, DecidableEq

/-- `d.SetId(v)`. -/
def ResourceData.setId (d : ResourceData) (v : String) : ResourceData :=
  { d with rid := v }

/-- Result of `retrieveLoadBalancerById`: found with data, not-found, or error. -/
inductive FetchResult where
  | err (msg : String)
  | notFound
  | found (lb : LoadBalancer)
  deriving Repr, DecidableEq

/-- External effects an execution performs, in order. -/
inductive Event where
  | lock (key : String)
  | unlock (key : String)
  | fetch (id : String)
  | submit (resGroup lbName : String)
  | waitCompletion
  | refetch (resGroup lbName : String)
  | pollState
  deriving Repr, DecidableEq

/-- How an execution ends: normal `nil` return, error return, or a runtime
panic (nil-pointer dereference). -/
inductive Outcome where
  | ok
  | err (msg : String)
  | panic
  deriving Repr, DecidableEq

/-- Modelled from the spec: the Sub-Resource Locator
(`findLoadBalancerNatPoolByName`, a repository helper not in the excerpt) —
"Linear scan over the aggregate's NAT-pool collection comparing by exact name.
Returns the zero-value element and found=false when absent."  We return
`some (element, index)` when found and `none` when absent. -/
def locatePool : List InboundNatPool → String → Nat → Option (InboundNatPool × Nat)
  | [], _, _ => none
  | p :: rest, n, i =>
      if p.name = some n then some (p, i) else locatePool rest n (i + 1)

/-- Modelled from the spec: `findLoadBalancerNatPoolByName` applied to the
aggregate; a missing collection scans as empty (not found). -/
def findLoadBalancerNatPoolByName (lb : LoadBalancer) (n : String) :
    Option (InboundNatPool × Nat) :=
  match lb.props with
  | none => none
  | some p =>
      match p.inboundNatPools with
      | none => none
      | some pools => locatePool pools n 0

/-- Modelled from the spec: the Sub-Resource Locator pattern applied to the
sibling collection (`findLoadBalancerFrontEndIpConfigurationByName`, a
repository helper not in the excerpt): linear scan by exact name. -/
def locateFeip : List FrontendIPConfig → String → Option FrontendIPConfig
  | [], _ => none
  | c :: rest, n => if c.name = some n then some c else locateFeip rest n

/-- Modelled from the spec: `findLoadBalancerFrontEndIpConfigurationByName`
applied to the aggregate; a missing collection scans as empty. -/
def findLoadBalancerFrontEndIpConfigurationByName (lb : LoadBalancer) (n : String) :
    Option FrontendIPConfig :=
  match lb.props with
  | none => none
  | some p =>
      match p.frontendIPConfigurations with
      | none => none
      | some cs => locateFeip cs n

/-- Modelled from the spec: `pointer.FromInt32` (helper not in the excerpt)
converts a Go `int` to `*int32`; the conversion wraps modulo 2^32. -/
def fromInt32 (i : Int) : Int :=
  (i + 2 ^ 31) % 2 ^ 32 - 2 ^ 31

/-- `expandAzureRmLoadBalancerNatPool` (source lines 269-292): build the wire
element from the desired state, resolving the frontend-IP-configuration
reference by name when one is supplied. -/
def expandAzureRmLoadBalancerNatPool (d : ResourceData) (lb : LoadBalancer) :
    Except String InboundNatPool :=
  let properties : InboundNatPoolProps :=
    { protocol := d.protocol
      frontendPortRangeStart := some (fromInt32 d.frontendPortStart)
      frontendPortRangeEnd := some (fromInt32 d.frontendPortEnd)
      backendPort := some (fromInt32 d.backendPort)
      frontendIPConfiguration := none }
  if d.frontendIpConfigurationName ≠ "" then
    match findLoadBalancerFrontEndIpConfigurationByName lb d.frontendIpConfigurationName with
    | none =>
        .error ("Cannot find FrontEnd IP Configuration with the name "
          ++ d.frontendIpConfigurationName)
    | some rule =>
        .ok { name := some d.name, id := none,
              props := some { properties with
                frontendIPConfiguration := some { id := rule.id } } }
  else
    .ok { name := some d.name, id := none, props := some properties }

/-- Equality of `Except` results is decidable componentwise. -/
instance {ε α : Type} [DecidableEq ε] [DecidableEq α] : DecidableEq (Except ε α) := by
  intro x y
  cases x <;> cases y
  case error.error a b =>
    exact if h : a = b then isTrue (by rw [h]) else isFalse (by simp [h])
  case ok.ok a b =>
    exact if h : a = b then isTrue (by rw [h]) else isFalse (by simp [h])
  case error.ok a b => exact isFalse (by simp)
  case ok.error a b => exact isFalse (by simp)

/-- Splits a character list at path separators. -/
def splitSlashAux : List Char → List Char → List String
  | [], acc => [String.mk acc.reverse]
  | c :: rest, acc =>
      if c = '/' then String.mk acc.reverse :: splitSlashAux rest []
      else splitSlashAux rest (c :: acc)

/-- Modelled from the spec: `parseAzureResourceID` (excluded collaborator) —
"a hierarchical path string encoding subscription/resource-group/parent-name/
sub-resource-name, parsed to extract the sub-resource's name segment".
Non-empty path segments of the identifier. -/
def pathSegments (s : String) : List String :=
  (splitSlashAux s.data []).filter (fun t => t ≠ "")

/-- Modelled from the spec: consecutive path segments read as key/value pairs. -/
def pathPairs : List String → List (String × String)
  | k :: v :: rest => (k, v) :: pathPairs rest
  | _ => []

/-- The parsed form of an Azure resource identifier: the resource group and
the key/value path map (`id.Path`); a missing key reads as the empty string,
as a Go map of strings does. -/
structure ParsedId where
  resourceGroup : String
  path : List (String × String)
  deriving Repr, DecidableEq

/-- `id.Path[key]` with the Go zero value for a missing key. -/
def ParsedId.get (pid : ParsedId) (key : String) : String :=
  (List.lookup key pid.path).getD ("")

/-- Modelled from the spec: `parseAzureResourceID` fails on a malformed
identifier (a `ValidationError`), here one with no path segments. -/
def parseAzureResourceID (s : String) : Except String ParsedId :=
  let segs := pathSegments s
  if segs = [] then .error ("Cannot parse Azure Resource ID " ++ s)
  else
    let pairs := pathPairs segs
    .ok { resourceGroup := (List.lookup ("resourceGroups") pairs).getD ("")
          path := pairs }

/-- Modelled from the spec: `resourceGroupAndLBNameFromId` (repository helper
not in the excerpt) extracts the resource-group and load-balancer name
segments of the parent identifier, failing when either is missing. -/
def resourceGroupAndLBNameFromId (s : String) : Except String (String × String) :=
  match parseAzureResourceID s with
  | .error e => .error e
  | .ok pid =>
      match List.lookup ("resourceGroups") pid.path,
            List.lookup ("loadBalancers") pid.path with
      | some rg, some n => .ok (rg, n)
      | _, _ => .error ("Cannot parse LoadBalancer ID " ++ s)

/-- The fields `resourceArmLoadBalancerNatPoolRead` writes back with `d.Set`;
`none` means the field was not written.  A nil pointer passed to `d.Set`
stores the Go zero value. -/
structure ObservedState where
  name : Option String := none
  resourceGroup : Option String := none
  protocol : Option String := none
  frontendPortStart : Option Int := none
  frontendPortEnd : Option Int := none
  backendPort : Option Int := none
  frontendIpConfigurationName : Option String := none
  frontendIpConfigurationId : Option String := none
  deriving Repr, DecidableEq

/-- Result of one execution of the read operation. -/
structure ReadResult where
  outcome : Outcome
  events : List Event
  d : ResourceData
  observed : ObservedState
  deriving Repr, DecidableEq

/-- The fields read writes before inspecting the element's properties:
`d.Set("name", ...)` and `d.Set("resource_group_name", ...)`
(source lines 194-195). -/
def obsBase (config : InboundNatPool) (pid : ParsedId) : ObservedState :=
  { name := some (config.name.getD (""))
    resourceGroup := some pid.resourceGroup }

/-- `obsBase` extended with the property projections of source lines 198-201. -/
def obsProps (config : InboundNatPool) (pid : ParsedId)
    (props : InboundNatPoolProps) : ObservedState :=
  { obsBase config pid with
    protocol := some props.protocol
    frontendPortStart := some (props.frontendPortRangeStart.getD 0)
    frontendPortEnd := some (props.frontendPortRangeEnd.getD 0)
    backendPort := some (props.backendPort.getD 0) }

/-- `resourceArmLoadBalancerNatPoolRead` (source lines 170-215).  `retrieve`
is the result of the `retrieveLoadBalancerById` remote call. -/
def resourceArmLoadBalancerNatPoolRead (d : ResourceData) (retrieve : FetchResult) :
    ReadResult :=
  match parseAzureResourceID d.rid with
  | .error e => ⟨.err e, [], d, {}⟩
  | .ok pid =>
    match retrieve with
    | .err e =>
        ⟨.err ("retrieving Load Balancer by ID: " ++ e), [.fetch d.loadbalancerId], d, {}⟩
    | .notFound => ⟨.ok, [.fetch d.loadbalancerId], d.setId (""), {}⟩
    | .found lb =>
      match findLoadBalancerNatPoolByName lb (pid.get ("inboundNatPools")) with
      | none => ⟨.ok, [.fetch d.loadbalancerId], d.setId (""), {}⟩
      | some (config, _) =>
        match config.props with
        | none => ⟨.ok, [.fetch d.loadbalancerId], d, obsBase config pid⟩
        | some props =>
          match props.frontendIPConfiguration with
          | none => ⟨.ok, [.fetch d.loadbalancerId], d, obsProps config pid props⟩
          | some feipConfig =>
            match feipConfig.id with
            | none => ⟨.panic, [.fetch d.loadbalancerId], d, obsProps config pid props⟩
            | some fid =>
              match parseAzureResourceID fid with
              | .error e => ⟨.err e, [.fetch d.loadbalancerId], d, obsProps config pid props⟩
              | .ok fipID =>
                  ⟨.ok, [.fetch d.loadbalancerId], d,
                    { obsProps config pid props with
                      frontendIpConfigurationName :=
                        some (fipID.get ("frontendIPConfigurations"))
                      frontendIpConfigurationId := some fid }⟩

/-- The results the remote environment supplies to one create/update or
delete execution: one value per external call the code can make. -/
structure Env where
  retrieve : FetchResult
  submitResult : Except String Unit
  waitResult : Except String Unit
  refetchResult : Except String LoadBalancer
  pollResult : Except String Unit
  readRetrieve : FetchResult
  deriving Repr

/-- Result of one execution of create/update. -/
structure CUResult where
  outcome : Outcome
  events : List Event
  d : ResourceData
  submitted : Option LoadBalancer
  observed : ObservedState
  deriving Repr, DecidableEq

/-- The identifier-extraction loop of source lines 142-147: scan the
re-fetched collection, keeping the `ID` of the last pool whose name matches;
`none` models the nil-pointer panic when a scanned pool's `Name`, or a
matching pool's `ID`, is nil. -/
def natPoolIdLoop : List InboundNatPool → String → String → Option String
  | [], _, acc => some acc
  | p :: rest, n, acc =>
      match p.name with
      | none => none
      | some pn =>
          if pn = n then
            match p.id with
            | none => none
            | some i => natPoolIdLoop rest n i
          else natPoolIdLoop rest n acc

/-- Source lines 108-116: the working collection — the fetched collection
with the newly built element appended, and, when an element of the same name
already exists, that element removed by its located index. -/
def workingNatPools (lb : LoadBalancer) (n : String) (pools : List InboundNatPool)
    (newNatPool : InboundNatPool) : List InboundNatPool :=
  match findLoadBalancerNatPoolByName lb n with
  | some (existingNatPool, existingNatPoolIndex) =>
      if existingNatPool.name = some n then
        (pools ++ [newNatPool]).eraseIdx existingNatPoolIndex
      else pools ++ [newNatPool]
  | none => pools ++ [newNatPool]

/-- The aggregate as handed to `client.CreateOrUpdate`: the fetched parent
with its NAT-pool collection replaced. -/
def submittedLB (lb : LoadBalancer) (lbProps : LoadBalancerProps)
    (pools : List InboundNatPool) : LoadBalancer :=
  { lb with props := some { lbProps with inboundNatPools := some pools } }

/-- The remote calls performed on the way to a completed re-fetch. -/
def evsThroughRefetch (d : ResourceData) (resGroup lbName : String) : List Event :=
  [.fetch d.loadbalancerId, .submit resGroup lbName, .waitCompletion,
    .refetch resGroup lbName]

/-- The body of `resourceArmLoadBalancerNatPoolCreateUpdate` (source lines
93-167), between lock acquisition and the deferred unlock. -/
def cuBody (d : ResourceData) (env : Env) : CUResult :=
  match env.retrieve with
  | .err e =>
      ⟨.err ("Error Getting LoadBalancer By ID " ++ e), [.fetch d.loadbalancerId], d, none, {}⟩
  | .notFound => ⟨.ok, [.fetch d.loadbalancerId], d.setId (""), none, {}⟩
  | .found lb =>
    match expandAzureRmLoadBalancerNatPool d lb with
    | .error e =>
        ⟨.err ("Error Expanding NAT Pool " ++ e), [.fetch d.loadbalancerId], d, none, {}⟩
    | .ok newNatPool =>
      match lb.props with
      | none => ⟨.panic, [.fetch d.loadbalancerId], d, none, {}⟩
      | some lbProps =>
        match lbProps.inboundNatPools with
        | none => ⟨.panic, [.fetch d.loadbalancerId], d, none, {}⟩
        | some pools =>
          match resourceGroupAndLBNameFromId d.loadbalancerId with
          | .error e =>
              ⟨.err ("Error Getting LoadBalancer Name and Group: " ++ e),
                [.fetch d.loadbalancerId], d, none, {}⟩
          | .ok (resGroup, lbName) =>
            match env.submitResult with
            | .error e =>
                ⟨.err ("Creating/Updating Load Balancer: " ++ e),
                  [.fetch d.loadbalancerId, .submit resGroup lbName], d,
                  some (submittedLB lb lbProps (workingNatPools lb d.name pools newNatPool)),
                  {}⟩
            | .ok _ =>
              match env.waitResult with
              | .error e =>
                  ⟨.err ("waiting for the completion of Load Balancer: " ++ e),
                    [.fetch d.loadbalancerId, .submit resGroup lbName, .waitCompletion],
                    d,
                    some (submittedLB lb lbProps (workingNatPools lb d.name pools newNatPool)),
                    {}⟩
              | .ok _ =>
                match env.refetchResult with
                | .error e =>
                    ⟨.err ("retrieving Load Balancer: " ++ e),
                      evsThroughRefetch d resGroup lbName, d,
                      some (submittedLB lb lbProps (workingNatPools lb d.name pools newNatPool)),
                      {}⟩
                | .ok readLB =>
                  match readLB.id with
                  | none =>
                      ⟨.err ("Cannot read LoadBalancer ID"),
                        evsThroughRefetch d resGroup lbName, d,
                        some (submittedLB lb lbProps (workingNatPools lb d.name pools newNatPool)),
                        {}⟩
                  | some _ =>
                    match readLB.props with
                    | none =>
                        ⟨.panic, evsThroughRefetch d resGroup lbName, d,
                          some (submittedLB lb lbProps (workingNatPools lb d.name pools newNatPool)),
                          {}⟩
                    | some readProps =>
                      match readProps.inboundNatPools with
                      | none =>
                          ⟨.panic, evsThroughRefetch d resGroup lbName, d,
                            some (submittedLB lb lbProps (workingNatPools lb d.name pools newNatPool)),
                            {}⟩
                      | some readPools =>
                        match natPoolIdLoop readPools d.name ("") with
                        | none =>
                            ⟨.panic, evsThroughRefetch d resGroup lbName, d,
                              some (submittedLB lb lbProps (workingNatPools lb d.name pools newNatPool)),
                              {}⟩
                        | some natPoolId =>
                          if natPoolId = "" then
                            ⟨.err ("Cannot find created LoadBalancer NAT Pool ID"),
                              evsThroughRefetch d resGroup lbName, d,
                              some (submittedLB lb lbProps (workingNatPools lb d.name pools newNatPool)),
                              {}⟩
                          else
                            match env.pollResult with
                            | .error e =>
                                ⟨.err ("waiting for LoadBalancer to become available: " ++ e),
                                  evsThroughRefetch d resGroup lbName ++ [.pollState],
                                  d.setId natPoolId,
                                  some (submittedLB lb lbProps (workingNatPools lb d.name pools newNatPool)),
                                  {}⟩
                            | .ok _ =>
                                ⟨(resourceArmLoadBalancerNatPoolRead (d.setId natPoolId) env.readRetrieve).outcome,
                                  evsThroughRefetch d resGroup lbName ++ [.pollState] ++
                                    (resourceArmLoadBalancerNatPoolRead (d.setId natPoolId) env.readRetrieve).events,
                                  (resourceArmLoadBalancerNatPoolRead (d.setId natPoolId) env.readRetrieve).d,
                                  some (submittedLB lb lbProps (workingNatPools lb d.name pools newNatPool)),
                                  (resourceArmLoadBalancerNatPoolRead (d.setId natPoolId) env.readRetrieve).observed⟩

/-- `resourceArmLoadBalancerNatPoolCreateUpdate` (source lines 85-168):
acquire the lock keyed by the parent identifier, run the body, and release
the lock on every exit (the Go `defer` runs on error returns and during
panic unwinding alike). -/
def resourceArmLoadBalancerNatPoolCreateUpdate (d : ResourceData) (env : Env) : CUResult :=
  let r := cuBody d env
  { r with events := .lock d.loadbalancerId :: r.events ++ [.unlock d.loadbalancerId] }

/-- Result of one execution of delete. -/
structure DeleteResult where
  outcome : Outcome
  events : List Event
  d : ResourceData
  submitted : Option LoadBalancer
  deriving Repr, DecidableEq

/-- The body of `resourceArmLoadBalancerNatPoolDelete` (source lines
225-266), between lock acquisition and the deferred unlock. -/
def deleteBody (d : ResourceData) (env : Env) : DeleteResult :=
  match env.retrieve with
  | .err e =>
      ⟨.err ("retrieving LoadBalancer by ID: " ++ e), [.fetch d.loadbalancerId], d, none⟩
  | .notFound => ⟨.ok, [.fetch d.loadbalancerId], d.setId (""), none⟩
  | .found lb =>
    match findLoadBalancerNatPoolByName lb d.name with
    | none => ⟨.ok, [.fetch d.loadbalancerId], d, none⟩
    | some (_, index) =>
      match lb.props with
      | none => ⟨.panic, [.fetch d.loadbalancerId], d, none⟩
      | some lbProps =>
        match lbProps.inboundNatPools with
        | none => ⟨.panic, [.fetch d.loadbalancerId], d, none⟩
        | some pools =>
          match resourceGroupAndLBNameFromId d.loadbalancerId with
          | .error e =>
              ⟨.err ("Error Getting LoadBalancer Name and Group: " ++ e),
                [.fetch d.loadbalancerId], d, none⟩
          | .ok (resGroup, lbName) =>
            match env.submitResult with
            | .error e =>
                ⟨.err ("creating/updating Load Balancer: " ++ e),
                  [.fetch d.loadbalancerId, .submit resGroup lbName], d,
                  some (submittedLB lb lbProps (pools.eraseIdx index))⟩
            | .ok _ =>
              match env.waitResult with
              | .error e =>
                  ⟨.err ("waiting for completion of the Load Balancer: " ++ e),
                    [.fetch d.loadbalancerId, .submit resGroup lbName, .waitCompletion],
                    d, some (submittedLB lb lbProps (pools.eraseIdx index))⟩
              | .ok _ =>
                match env.refetchResult with
                | .error e =>
                    ⟨.err ("retrieving Load Balancer: " ++ e),
                      evsThroughRefetch d resGroup lbName, d,
                      some (submittedLB lb lbProps (pools.eraseIdx index))⟩
                | .ok readLB =>
                  match readLB.id with
                  | none =>
                      ⟨.err ("Cannot read LoadBalancer ID"),
                        evsThroughRefetch d resGroup lbName, d,
                        some (submittedLB lb lbProps (pools.eraseIdx index))⟩
                  | some _ =>
                      ⟨.ok, evsThroughRefetch d resGroup lbName, d,
                        some (submittedLB lb lbProps (pools.eraseIdx index))⟩

/-- `resourceArmLoadBalancerNatPoolDelete` (source lines 217-267): lock,
body, unconditional deferred unlock. -/
def resourceArmLoadBalancerNatPoolDelete (d : ResourceData) (env : Env) : DeleteResult :=
  let r := deleteBody d env
  { r with events := .lock d.loadbalancerId :: r.events ++ [.unlock d.loadbalancerId] }

/-- Recognises lock-acquisition events. -/
def isLockEv : Event → Bool
  | .lock _ => true
  | _ => false

/-- Recognises lock-release events. -/
def isUnlockEv : Event → Bool
  | .unlock _ => true
  | _ => false

/-- Recognises remote submit (`client.CreateOrUpdate`) events. -/
def isSubmitEv : Event → Bool
  | .submit _ _ => true
  | _ => false

/-! ### Concrete fixtures used by the witnesses -/

/-- A well-formed parent load-balancer identifier. -/
def sampleLbId : String :=
  "/subscriptions/s1/resourceGroups/rg1/providers/Microsoft.Network/loadBalancers/lb1"

/-- Identifier of the sample frontend IP configuration. -/
def sampleFeipId : String := sampleLbId ++ "/frontendIPConfigurations/feip1"

/-- Identifier the remote system assigns to the sample NAT pool. -/
def samplePoolId : String := sampleLbId ++ "/inboundNatPools/pool1"

/-- A frontend IP configuration present on the sample parent. -/
def sampleFeip : FrontendIPConfig :=
  { name := some ("feip1"), id := some sampleFeipId }

/-- A sample desired state. -/
def sampleD : ResourceData :=
  { rid := ""
    name := "pool1"
    loadbalancerId := sampleLbId
    protocol := "Tcp"
    frontendPortStart := 50000
    frontendPortEnd := 50100
    backendPort := 22
    frontendIpConfigurationName := "feip1" }

/-- The sample parent as fetched: empty NAT-pool collection, one frontend
IP configuration. -/
def sampleLB : LoadBalancer :=
  { id := some sampleLbId
    props := some { inboundNatPools := some []
                    frontendIPConfigurations := some [sampleFeip] } }

/-- The element `expandAzureRmLoadBalancerNatPool` builds from `sampleD`. -/
def samplePool : InboundNatPool :=
  { name := some ("pool1"), id := none
    props := some { protocol := "Tcp"
                    frontendPortRangeStart := some 50000
                    frontendPortRangeEnd := some 50100
                    backendPort := some 22
                    frontendIPConfiguration := some { id := some sampleFeipId } } }

/-- The sample pool after the remote system assigns its identifier. -/
def samplePoolAssigned : InboundNatPool := { samplePool with id := some samplePoolId }

/-- The parent as re-fetched after a successful submit. -/
def sampleReadLB : LoadBalancer :=
  { id := some sampleLbId
    props := some { inboundNatPools := some [samplePoolAssigned]
                    frontendIPConfigurations := some [sampleFeip] } }

/-- A fully successful, consistent remote environment. -/
def sampleEnv : Env :=
  { retrieve := .found sampleLB
    submitResult := .ok ()
    waitResult := .ok ()
    refetchResult := .ok sampleReadLB
    pollResult := .ok ()
    readRetrieve := .found sampleReadLB }

/-- The sample environment with the parent missing. -/
def sampleEnvGone : Env := { sampleEnv with retrieve := .notFound }

/-- An older remote element bearing the sample name but different fields. -/
def sampleOldPool : InboundNatPool :=
  { name := some ("pool1"), id := some samplePoolId
    props := some { protocol := "Udp"
                    frontendPortRangeStart := some 1000
                    frontendPortRangeEnd := some 2000
                    backendPort := some 21
                    frontendIPConfiguration := some { id := some sampleFeipId } } }

/-- Parent properties already carrying the old element. -/
def sampleOldProps : LoadBalancerProps :=
  { inboundNatPools := some [sampleOldPool]
    frontendIPConfigurations := some [sampleFeip] }

/-- The sample parent as fetched when an element of the same name exists. -/
def sampleLBWithOld : LoadBalancer :=
  { id := some sampleLbId, props := some sampleOldProps }

/-- The successful environment for an update of the existing element. -/
def sampleEnvUpdate : Env := { sampleEnv with retrieve := .found sampleLBWithOld }

/-- A re-fetched parent carrying no identifier. -/
def sampleReadLBNoId : LoadBalancer := { id := none, props := some sampleOldProps }

/-- Environment whose re-fetch result carries no identifier. -/
def sampleEnvNoId : Env := { sampleEnv with refetchResult := .ok sampleReadLBNoId }

/-- A re-fetched parent with an identifier but absent collection properties. -/
def sampleReadLBNoProps : LoadBalancer := { id := some sampleLbId, props := none }

/-- Environment whose re-fetch result has absent collection properties. -/
def sampleEnvNoProps : Env := { sampleEnv with refetchResult := .ok sampleReadLBNoProps }

/-- A remote element with a different name. -/
def sampleOtherPool : InboundNatPool :=
  { name := some ("other"), id := some (sampleLbId ++ "/inboundNatPools/other")
    props := none }

/-- A re-fetched parent whose collection misses the desired name. -/
def sampleReadLBNoMatch : LoadBalancer :=
  { id := some sampleLbId
    props := some { inboundNatPools := some [sampleOtherPool]
                    frontendIPConfigurations := some [sampleFeip] } }

/-- Environment whose re-fetch result misses the desired name. -/
def sampleEnvNoMatch : Env := { sampleEnv with refetchResult := .ok sampleReadLBNoMatch }

/-- The properties the builder produces when the frontend-IP-configuration
name resolves to `rule` (source lines 270-285). -/
def builtProps (d : ResourceData) (rule : FrontendIPConfig) : InboundNatPoolProps :=
  { protocol := d.protocol
    frontendPortRangeStart := some (fromInt32 d.frontendPortStart)
    frontendPortRangeEnd := some (fromInt32 d.frontendPortEnd)
    backendPort := some (fromInt32 d.backendPort)
    frontendIPConfiguration := some { id := rule.id } }

/-- The element the builder produces when the frontend-IP-configuration name
resolves to `rule` (source lines 269-292, resolved branch). -/
def builtPool (d : ResourceData) (rule : FrontendIPConfig) : InboundNatPool :=
  { name := some d.name, id := none, props := some (builtProps d rule) }

/-- The parsed form of the sample pool identifier. -/
def samplePoolParsedId : ParsedId :=
  { resourceGroup := "rg1"
    path := [("subscriptions", "s1"), ("resourceGroups", "rg1")
             , ("providers", "Microsoft.Network"), ("loadBalancers", "lb1")
             , ("inboundNatPools", "pool1")] }

/-- The parsed form of the sample frontend-IP-configuration identifier. -/
def sampleFeipParsedId : ParsedId :=
  { resourceGroup := "rg1"
    path := [("subscriptions", "s1"), ("resourceGroups", "rg1")
             , ("providers", "Microsoft.Network"), ("loadBalancers", "lb1")
             , ("frontendIPConfigurations", "feip1")] }

/-- The sample desired state with no frontend-IP-configuration name. -/
def sampleDEmptyFeip : ResourceData := { sampleD with frontendIpConfigurationName := "" }

/-! ### Helper lemmas -/

/-- `fromInt32` is the identity on values representable in 32 bits. -/
theorem fromInt32_eq_self {i : Int} (h1 : -(2 ^ 31) ≤ i) (h2 : i < 2 ^ 31) :
    fromInt32 i = i := by
  unfold fromInt32
  omega

/-- A successful build names the element after the desired state and carries
no identifier yet. -/
theorem expand_ok_name {d : ResourceData} {lb : LoadBalancer} {p : InboundNatPool}
    (h : expandAzureRmLoadBalancerNatPool d lb = .ok p) :
    p.name = some d.name ∧ p.id = none := by
  unfold expandAzureRmLoadBalancerNatPool at h
  split at h
  · split at h
    · exact absurd h (by simp)
    · exact ⟨by simp [← Except.ok.inj h], by simp [← Except.ok.inj h]⟩
  · exact ⟨by simp [← Except.ok.inj h], by simp [← Except.ok.inj h]⟩

/-- What a successful scan of the locator means: the element is at the
reported index (relative to the start index) and carries the sought name. -/
theorem locatePool_eq_some {pools : List InboundNatPool} {n : String} {i j : Nat}
    {p : InboundNatPool} (h : locatePool pools n i = some (p, j)) :
    ∃ k, j = i + k ∧ pools.get? k = some p ∧ p.name = some n := by
  induction pools generalizing i with
  | nil => simp [locatePool] at h
  | cons q rest ih =>
      rw [locatePool] at h
      by_cases hq : q.name = some n
      · rw [if_pos hq] at h
        have hpq : q = p ∧ i = j := by
          have := Option.some.inj h
          exact ⟨congrArg Prod.fst this, congrArg Prod.snd this⟩
        obtain ⟨rfl, rfl⟩ := hpq
        exact ⟨0, by omega, by simp, hq⟩
      · rw [if_neg hq] at h
        obtain ⟨k, rfl, hget, hname⟩ := ih h
        exact ⟨k + 1, by omega, by simpa using hget, hname⟩

/-- The read operation performs at most the one fetch remote call. -/
theorem read_events_cases (d : ResourceData) (r : FetchResult) :
    (resourceArmLoadBalancerNatPoolRead d r).events = [] ∨
    (resourceArmLoadBalancerNatPoolRead d r).events = [.fetch d.loadbalancerId] := by
  unfold resourceArmLoadBalancerNatPoolRead
  repeat' split
  all_goals first | exact Or.inl rfl | exact Or.inr rfl

/-- The lock-event-free trace of the read operation. -/
theorem read_no_lock (d : ResourceData) (r : FetchResult) :
    ((resourceArmLoadBalancerNatPoolRead d r).events.filter isLockEv) = [] ∧
    ((resourceArmLoadBalancerNatPoolRead d r).events.filter isUnlockEv) = [] := by
  rcases read_events_cases d r with h | h <;> rw [h] <;> exact ⟨rfl, rfl⟩

/-- The body of create/update emits no lock events of its own. -/
theorem cuBody_no_lock (d : ResourceData) (env : Env) :
    ((cuBody d env).events.filter isLockEv) = [] ∧
    ((cuBody d env).events.filter isUnlockEv) = [] := by
  unfold cuBody
  repeat' split
  all_goals try exact ⟨rfl, rfl⟩
  constructor
  · rw [List.filter_append, List.filter_append, (read_no_lock _ _).1]
    rfl
  · rw [List.filter_append, List.filter_append, (read_no_lock _ _).2]
    rfl

/-- The body of delete emits no lock events of its own. -/
theorem deleteBody_no_lock (d : ResourceData) (env : Env) :
    ((deleteBody d env).events.filter isLockEv) = [] ∧
    ((deleteBody d env).events.filter isUnlockEv) = [] := by
  unfold deleteBody
  repeat' split
  all_goals exact ⟨rfl, rfl⟩

/-- The full event trace of create/update in lock-wrapped form. -/
theorem cu_events_eq (d : ResourceData) (env : Env) :
    (resourceArmLoadBalancerNatPoolCreateUpdate d env).events =
      (.lock d.loadbalancerId :: (cuBody d env).events) ++ [.unlock d.loadbalancerId] := by
  simp [resourceArmLoadBalancerNatPoolCreateUpdate]

/-- The full event trace of delete in lock-wrapped form. -/
theorem delete_events_eq (d : ResourceData) (env : Env) :
    (resourceArmLoadBalancerNatPoolDelete d env).events =
      (.lock d.loadbalancerId :: (deleteBody d env).events) ++ [.unlock d.loadbalancerId] := by
  simp [resourceArmLoadBalancerNatPoolDelete]

/-- C2: every execution of create/update and of delete acquires the lock
keyed by the parent load-balancer identifier as its very first event — hence
before any remote call — and releases exactly that lock as its very last
event, on every exit path (error returns and panic unwinding included);
the read operation performs no lock acquisition or release at all. -/
theorem c2_lock_discipline (d : ResourceData) (env : Env) (r : FetchResult) :
    ((resourceArmLoadBalancerNatPoolCreateUpdate d env).events.head? =
        some (.lock d.loadbalancerId) ∧
      (resourceArmLoadBalancerNatPoolCreateUpdate d env).events.getLast? =
        some (.unlock d.loadbalancerId) ∧
      (resourceArmLoadBalancerNatPoolCreateUpdate d env).events.filter isLockEv =
        [.lock d.loadbalancerId] ∧
      (resourceArmLoadBalancerNatPoolCreateUpdate d env).events.filter isUnlockEv =
        [.unlock d.loadbalancerId]) ∧
    ((resourceArmLoadBalancerNatPoolDelete d env).events.head? =
        some (.lock d.loadbalancerId) ∧
      (resourceArmLoadBalancerNatPoolDelete d env).events.getLast? =
        some (.unlock d.loadbalancerId) ∧
      (resourceArmLoadBalancerNatPoolDelete d env).events.filter isLockEv =
        [.lock d.loadbalancerId] ∧
      (resourceArmLoadBalancerNatPoolDelete d env).events.filter isUnlockEv =
        [.unlock d.loadbalancerId]) ∧
    ((resourceArmLoadBalancerNatPoolRead d r).events.filter isLockEv = [] ∧
      (resourceArmLoadBalancerNatPoolRead d r).events.filter isUnlockEv = []) := by
  refine ⟨⟨?_, ?_, ?_, ?_⟩, ⟨?_, ?_, ?_, ?_⟩, read_no_lock d r⟩
  · rfl
  · rw [cu_events_eq, List.getLast?_concat]
  · rw [cu_events_eq]
    simp [List.filter_append, List.filter_cons, isLockEv, (cuBody_no_lock d env).1]
  · rw [cu_events_eq]
    simp [List.filter_append, List.filter_cons, isUnlockEv, (cuBody_no_lock d env).2]
  · rfl
  · rw [delete_events_eq, List.getLast?_concat]
  · rw [delete_events_eq]
    simp [List.filter_append, List.filter_cons, isLockEv, (deleteBody_no_lock d env).1]
  · rw [delete_events_eq]
    simp [List.filter_append, List.filter_cons, isUnlockEv, (deleteBody_no_lock d env).2]

/-- C4: when the fetch reports the parent load balancer not found,
create/update clears the local resource identifier, returns success, builds
nothing and submits nothing — its only remote call is the fetch. -/
theorem c4_parent_gone_create_update (d : ResourceData) (env : Env)
    (h : env.retrieve = .notFound) :
    (resourceArmLoadBalancerNatPoolCreateUpdate d env).outcome = .ok ∧
    (resourceArmLoadBalancerNatPoolCreateUpdate d env).d.rid = "" ∧
    (resourceArmLoadBalancerNatPoolCreateUpdate d env).submitted = none ∧
    (resourceArmLoadBalancerNatPoolCreateUpdate d env).events =
      [.lock d.loadbalancerId, .fetch d.loadbalancerId, .unlock d.loadbalancerId] := by
  simp [resourceArmLoadBalancerNatPoolCreateUpdate, cuBody, h, ResourceData.setId]

/-- Witness for C4 at a concrete desired state and environment. -/
theorem c4_parent_gone_create_update_witness :
    (resourceArmLoadBalancerNatPoolCreateUpdate sampleD sampleEnvGone).outcome = .ok ∧
    (resourceArmLoadBalancerNatPoolCreateUpdate sampleD sampleEnvGone).d.rid = "" ∧
    (resourceArmLoadBalancerNatPoolCreateUpdate sampleD sampleEnvGone).submitted = none ∧
    (resourceArmLoadBalancerNatPoolCreateUpdate sampleD sampleEnvGone).events =
      [.lock sampleLbId, .fetch sampleLbId, .unlock sampleLbId] :=
  c4_parent_gone_create_update sampleD sampleEnvGone rfl

/-- C3: when the desired state names a frontend IP configuration absent from
the fetched parent's sibling collection, create/update returns an error whose
message names the missing configuration, and performs no remote submit —
the whole trace is lock, fetch, unlock. -/
theorem c3_missing_feip_fails_before_submit (d : ResourceData) (env : Env)
    (lb : LoadBalancer) (h1 : env.retrieve = .found lb)
    (h2 : d.frontendIpConfigurationName ≠ "")
    (h3 : findLoadBalancerFrontEndIpConfigurationByName lb d.frontendIpConfigurationName
      = none) :
    (resourceArmLoadBalancerNatPoolCreateUpdate d env).outcome =
      .err ("Error Expanding NAT Pool " ++
        ("Cannot find FrontEnd IP Configuration with the name " ++
          d.frontendIpConfigurationName)) ∧
    (resourceArmLoadBalancerNatPoolCreateUpdate d env).submitted = none ∧
    (resourceArmLoadBalancerNatPoolCreateUpdate d env).events =
      [.lock d.loadbalancerId, .fetch d.loadbalancerId, .unlock d.loadbalancerId] := by
  simp [resourceArmLoadBalancerNatPoolCreateUpdate, cuBody,
    expandAzureRmLoadBalancerNatPool, h1, h2, h3]

/-- Witness for C3: the sample desired state pointed at a configuration name
the sample parent does not carry. -/
theorem c3_missing_feip_fails_before_submit_witness :
    (resourceArmLoadBalancerNatPoolCreateUpdate
        { sampleD with frontendIpConfigurationName := "missing" } sampleEnv).outcome =
      .err ("Error Expanding NAT Pool " ++
        ("Cannot find FrontEnd IP Configuration with the name " ++ "missing")) ∧
    (resourceArmLoadBalancerNatPoolCreateUpdate
        { sampleD with frontendIpConfigurationName := "missing" } sampleEnv).submitted =
      none ∧
    (resourceArmLoadBalancerNatPoolCreateUpdate
        { sampleD with frontendIpConfigurationName := "missing" } sampleEnv).events =
      [.lock sampleLbId, .fetch sampleLbId, .unlock sampleLbId] :=
  c3_missing_feip_fails_before_submit
    { sampleD with frontendIpConfigurationName := "missing" } sampleEnv sampleLB
    rfl (by decide) rfl

/-- C5: delete returns success and submits nothing both when the parent is
not found and when no element with the desired name exists in the parent's
collection; either way the whole trace is lock, fetch, unlock, so a repeated
delete is a no-op success. -/
theorem c5_delete_idempotent (d : ResourceData) (env : Env)
    (h : env.retrieve = .notFound ∨
      ∃ lb, env.retrieve = .found lb ∧ findLoadBalancerNatPoolByName lb d.name = none) :
    (resourceArmLoadBalancerNatPoolDelete d env).outcome = .ok ∧
    (resourceArmLoadBalancerNatPoolDelete d env).submitted = none ∧
    (resourceArmLoadBalancerNatPoolDelete d env).events =
      [.lock d.loadbalancerId, .fetch d.loadbalancerId, .unlock d.loadbalancerId] := by
  rcases h with h | ⟨lb, h1, h2⟩
  · simp [resourceArmLoadBalancerNatPoolDelete, deleteBody, h]
  · simp [resourceArmLoadBalancerNatPoolDelete, deleteBody, h1, h2]

/-- Witness for C5 in the parent-not-found case. -/
theorem c5_delete_idempotent_witness :
    (resourceArmLoadBalancerNatPoolDelete sampleD sampleEnvGone).outcome = .ok ∧
    (resourceArmLoadBalancerNatPoolDelete sampleD sampleEnvGone).submitted = none ∧
    (resourceArmLoadBalancerNatPoolDelete sampleD sampleEnvGone).events =
      [.lock sampleLbId, .fetch sampleLbId, .unlock sampleLbId] :=
  c5_delete_idempotent sampleD sampleEnvGone (Or.inl rfl)

/-- A located element really sits at the reported index of the collection
and bears the sought name. -/
theorem find_some_get {lb : LoadBalancer} {p : LoadBalancerProps}
    {pools : List InboundNatPool} {n : String} {ex : InboundNatPool} {idx : Nat}
    (hp : lb.props = some p) (hpools : p.inboundNatPools = some pools)
    (h : findLoadBalancerNatPoolByName lb n = some (ex, idx)) :
    pools.get? idx = some ex ∧ ex.name = some n := by
  unfold findLoadBalancerNatPoolByName at h
  simp only [hp, hpools] at h
  obtain ⟨k, hk, hget, hname⟩ := locatePool_eq_some h
  have hki : k = idx := by omega
  subst hki
  exact ⟨hget, hname⟩

/-- Erasing an index that lies inside the original part of `l ++ [x]`. -/
theorem eraseIdx_append_singleton {α : Type} (l : List α) (x : α) (i : Nat)
    (h : i < l.length) :
    (l ++ [x]).eraseIdx i = (l.take i ++ l.drop (i + 1)) ++ [x] := by
  rw [List.eraseIdx_eq_take_drop_succ,
    List.take_append_of_le_length (by omega),
    List.drop_append_of_le_length (by omega),
    List.append_assoc]

/-- A successfully located index is inside the collection. -/
theorem find_some_lt {lb : LoadBalancer} {p : LoadBalancerProps}
    {pools : List InboundNatPool} {n : String} {ex : InboundNatPool} {idx : Nat}
    (hp : lb.props = some p) (hpools : p.inboundNatPools = some pools)
    (h : findLoadBalancerNatPoolByName lb n = some (ex, idx)) :
    idx < pools.length := by
  have hget := (find_some_get hp hpools h).1
  rw [List.get?_eq_getElem?] at hget
  exact (List.getElem?_eq_some.mp hget).1

/-- With at most one element of the sought name in the fetched collection,
the working collection contains exactly one element of that name: the newly
built one. -/
theorem workingNatPools_filter {lb : LoadBalancer} {lbProps : LoadBalancerProps}
    {pools : List InboundNatPool} {n : String} {newNatPool ex : InboundNatPool}
    {idx : Nat}
    (hp : lb.props = some lbProps) (hpools : lbProps.inboundNatPools = some pools)
    (hfind : findLoadBalancerNatPoolByName lb n = some (ex, idx))
    (hnew : newNatPool.name = some n)
    (hu : (pools.filter (fun q => q.name == some n)).length ≤ 1) :
    (workingNatPools lb n pools newNatPool).filter (fun q => q.name == some n)
      = [newNatPool] := by
  obtain ⟨hget, hname⟩ := find_some_get hp hpools hfind
  have hlt : idx < pools.length := find_some_lt hp hpools hfind
  have hdecomp : pools = pools.take idx ++ ex :: pools.drop (idx + 1) := by
    rw [List.get?_eq_getElem?] at hget
    obtain ⟨hlt2, hv⟩ := List.getElem?_eq_some.mp hget
    conv_lhs => rw [← List.take_append_drop idx pools, List.drop_eq_getElem_cons hlt2, hv]
  have hsplit : (pools.filter (fun q => q.name == some n)).length =
      ((pools.take idx).filter (fun q => q.name == some n)).length + 1 +
      ((pools.drop (idx + 1)).filter (fun q => q.name == some n)).length := by
    conv_lhs => rw [hdecomp]
    simp [List.filter_append, List.filter_cons, hname]
    omega
  have hA : (pools.take idx).filter (fun q => q.name == some n) = [] := by
    have hlen : ((pools.take idx).filter (fun q => q.name == some n)).length = 0 := by
      omega
    exact List.eq_nil_of_length_eq_zero hlen
  have hB : (pools.drop (idx + 1)).filter (fun q => q.name == some n) = [] := by
    have hlen : ((pools.drop (idx + 1)).filter (fun q => q.name == some n)).length = 0 := by
      omega
    exact List.eq_nil_of_length_eq_zero hlen
  unfold workingNatPools
  simp only [hfind]
  rw [if_pos hname, eraseIdx_append_singleton _ _ _ hlt]
  simp [List.filter_append, hA, hB, List.filter_cons, hnew]

/-- Once the run reaches the submit call, the aggregate handed to
`client.CreateOrUpdate` is the fetched parent carrying the working
collection, whatever the remote results afterwards, and the submit event is
in the trace. -/
theorem cuBody_submitted_eq {d : ResourceData} {env : Env} {lb : LoadBalancer}
    {lbProps : LoadBalancerProps} {pools : List InboundNatPool}
    {newNatPool : InboundNatPool} {rg lbName : String}
    (h1 : env.retrieve = .found lb)
    (h2 : expandAzureRmLoadBalancerNatPool d lb = .ok newNatPool)
    (h3 : lb.props = some lbProps)
    (h4 : lbProps.inboundNatPools = some pools)
    (h5 : resourceGroupAndLBNameFromId d.loadbalancerId = .ok (rg, lbName)) :
    (cuBody d env).submitted =
      some (submittedLB lb lbProps (workingNatPools lb d.name pools newNatPool)) ∧
    Event.submit rg lbName ∈ (cuBody d env).events := by
  unfold cuBody
  simp only [h1, h2, h3, h4, h5]
  repeat' split
  all_goals simp [evsThroughRefetch]

/-- Delete's submitted aggregate, once its run reaches the submit call. -/
theorem deleteBody_submitted_eq {d : ResourceData} {env : Env} {lb : LoadBalancer}
    {lbProps : LoadBalancerProps} {pools : List InboundNatPool}
    {ex : InboundNatPool} {idx : Nat} {rg lbName : String}
    (h1 : env.retrieve = .found lb)
    (h2 : findLoadBalancerNatPoolByName lb d.name = some (ex, idx))
    (h3 : lb.props = some lbProps)
    (h4 : lbProps.inboundNatPools = some pools)
    (h5 : resourceGroupAndLBNameFromId d.loadbalancerId = .ok (rg, lbName)) :
    (deleteBody d env).submitted =
      some (submittedLB lb lbProps (pools.eraseIdx idx)) ∧
    Event.submit rg lbName ∈ (deleteBody d env).events := by
  unfold deleteBody
  simp only [h1, h2, h3, h4, h5]
  repeat' split
  all_goals simp [evsThroughRefetch]

/-- C1: when the desired name matches an existing element of the fetched
collection (and names are unique in it, the data model's invariant), the
collection create/update hands to the remote submit contains exactly one
element of that name, and it is the newly built element — a full overwrite,
not a merge, with no duplication. -/
theorem c1_same_name_full_overwrite (d : ResourceData) (env : Env)
    (lb : LoadBalancer) (lbProps : LoadBalancerProps)
    (pools : List InboundNatPool) (newNatPool ex : InboundNatPool) (idx : Nat)
    (rg lbName : String)
    (h1 : env.retrieve = .found lb)
    (h2 : lb.props = some lbProps)
    (h3 : lbProps.inboundNatPools = some pools)
    (h4 : findLoadBalancerNatPoolByName lb d.name = some (ex, idx))
    (h5 : expandAzureRmLoadBalancerNatPool d lb = .ok newNatPool)
    (h6 : (pools.filter (fun q => q.name == some d.name)).length ≤ 1)
    (h7 : resourceGroupAndLBNameFromId d.loadbalancerId = .ok (rg, lbName)) :
    (resourceArmLoadBalancerNatPoolCreateUpdate d env).submitted =
      some (submittedLB lb lbProps (workingNatPools lb d.name pools newNatPool)) ∧
    (workingNatPools lb d.name pools newNatPool).filter
        (fun q => q.name == some d.name) = [newNatPool] ∧
    Event.submit rg lbName ∈ (resourceArmLoadBalancerNatPoolCreateUpdate d env).events := by
  obtain ⟨hsub, hmem⟩ := cuBody_submitted_eq h1 h5 h2 h3 h7
  refine ⟨?_, ?_, ?_⟩
  · simpa [resourceArmLoadBalancerNatPoolCreateUpdate] using hsub
  · exact workingNatPools_filter h2 h3 h4 (expand_ok_name h5).1 h6
  · rw [cu_events_eq]
    simp only [List.mem_append, List.mem_cons]
    exact Or.inl (Or.inr (by simpa using hmem))

/-- Witness for C1: updating the sample pool over an existing element of the
same name submits a collection whose only element of that name is the newly
built one. -/
theorem c1_same_name_full_overwrite_witness :
    (resourceArmLoadBalancerNatPoolCreateUpdate sampleD sampleEnvUpdate).submitted =
      some (submittedLB sampleLBWithOld sampleOldProps
        (workingNatPools sampleLBWithOld "pool1" [sampleOldPool] samplePool)) ∧
    (workingNatPools sampleLBWithOld "pool1" [sampleOldPool] samplePool).filter
        (fun q => q.name == some ("pool1")) = [samplePool] ∧
    Event.submit "rg1" "lb1" ∈
      (resourceArmLoadBalancerNatPoolCreateUpdate sampleD sampleEnvUpdate).events :=
  c1_same_name_full_overwrite sampleD sampleEnvUpdate sampleLBWithOld sampleOldProps
    [sampleOldPool] samplePool sampleOldPool 0 "rg1" "lb1"
    rfl rfl rfl (by decide) (by decide) (by decide) (by decide)

/-- C9: the pre-submit mutation touches only the element bearing the desired
name.  In create/update the submitted collection is the fetched one with the
located element (which bears the desired name) removed — all other elements
unchanged, in their original relative order — and the new element appended at
the end; when no element matches, nothing is removed.  In delete exactly the
element at the located index is removed and nothing else changes. -/
theorem c9_frame_only_named_element (d : ResourceData) (env : Env)
    (lb : LoadBalancer) (lbProps : LoadBalancerProps)
    (pools : List InboundNatPool) (newNatPool ex : InboundNatPool) (idx : Nat)
    (rg lbName : String)
    (h1 : env.retrieve = .found lb)
    (h2 : lb.props = some lbProps)
    (h3 : lbProps.inboundNatPools = some pools)
    (h5 : expandAzureRmLoadBalancerNatPool d lb = .ok newNatPool)
    (h7 : resourceGroupAndLBNameFromId d.loadbalancerId = .ok (rg, lbName)) :
    (findLoadBalancerNatPoolByName lb d.name = some (ex, idx) →
      ex.name = some d.name ∧
      (resourceArmLoadBalancerNatPoolCreateUpdate d env).submitted =
        some (submittedLB lb lbProps
          ((pools.take idx ++ pools.drop (idx + 1)) ++ [newNatPool])) ∧
      (resourceArmLoadBalancerNatPoolDelete d env).submitted =
        some (submittedLB lb lbProps (pools.take idx ++ pools.drop (idx + 1)))) ∧
    (findLoadBalancerNatPoolByName lb d.name = none →
      (resourceArmLoadBalancerNatPoolCreateUpdate d env).submitted =
        some (submittedLB lb lbProps (pools ++ [newNatPool]))) := by
  constructor
  · intro hfind
    have hname := (find_some_get h2 h3 hfind).2
    have hlt := find_some_lt h2 h3 hfind
    have hw : workingNatPools lb d.name pools newNatPool =
        (pools.take idx ++ pools.drop (idx + 1)) ++ [newNatPool] := by
      unfold workingNatPools
      simp only [hfind]
      rw [if_pos hname, eraseIdx_append_singleton _ _ _ hlt]
    refine ⟨hname, ?_, ?_⟩
    · have hs := (cuBody_submitted_eq h1 h5 h2 h3 h7).1
      rw [hw] at hs
      simpa [resourceArmLoadBalancerNatPoolCreateUpdate] using hs
    · have hs := (deleteBody_submitted_eq h1 hfind h2 h3 h7).1
      rw [List.eraseIdx_eq_take_drop_succ] at hs
      simpa [resourceArmLoadBalancerNatPoolDelete] using hs
  · intro hfind
    have hw : workingNatPools lb d.name pools newNatPool = pools ++ [newNatPool] := by
      unfold workingNatPools
      simp only [hfind]
    have hs := (cuBody_submitted_eq h1 h5 h2 h3 h7).1
    rw [hw] at hs
    simpa [resourceArmLoadBalancerNatPoolCreateUpdate] using hs

/-- Witness for C9 in the matching case: over a one-element collection the
update submits exactly the new element and the delete submits the empty
collection. -/
theorem c9_frame_only_named_element_witness :
    sampleOldPool.name = some ("pool1") ∧
    (resourceArmLoadBalancerNatPoolCreateUpdate sampleD sampleEnvUpdate).submitted =
      some (submittedLB sampleLBWithOld sampleOldProps [samplePool]) ∧
    (resourceArmLoadBalancerNatPoolDelete sampleD sampleEnvUpdate).submitted =
      some (submittedLB sampleLBWithOld sampleOldProps []) :=
  (c9_frame_only_named_element sampleD sampleEnvUpdate sampleLBWithOld sampleOldProps
    [sampleOldPool] samplePool sampleOldPool 0 "rg1" "lb1"
    rfl rfl rfl (by decide) (by decide)).1 (by decide)

/-- C10: when the desired state's frontend-IP-configuration name is the
empty string, the element builder succeeds without consulting the sibling
collection and the built element carries no frontend-IP-configuration
reference. -/
theorem c10_empty_feip_name_skips_lookup (d : ResourceData) (lb : LoadBalancer)
    (h : d.frontendIpConfigurationName = "") :
    expandAzureRmLoadBalancerNatPool d lb =
      .ok { name := some d.name, id := none,
            props := some { protocol := d.protocol
                            frontendPortRangeStart := some (fromInt32 d.frontendPortStart)
                            frontendPortRangeEnd := some (fromInt32 d.frontendPortEnd)
                            backendPort := some (fromInt32 d.backendPort)
                            frontendIPConfiguration := none } } := by
  simp [expandAzureRmLoadBalancerNatPool, h]

/-- Witness for C10: the sample desired state with an empty configuration
name, against a parent whose sibling collection would not resolve it. -/
theorem c10_empty_feip_name_skips_lookup_witness :
    expandAzureRmLoadBalancerNatPool sampleDEmptyFeip sampleLB =
      .ok { name := some ("pool1"), id := none,
            props := some { protocol := "Tcp"
                            frontendPortRangeStart := some 50000
                            frontendPortRangeEnd := some 50100
                            backendPort := some 22
                            frontendIPConfiguration := none } } :=
  c10_empty_feip_name_skips_lookup sampleDEmptyFeip sampleLB rfl

/-- The lock wrapper changes no field but the event trace. -/
theorem cu_outcome_eq (d : ResourceData) (env : Env) :
    (resourceArmLoadBalancerNatPoolCreateUpdate d env).outcome = (cuBody d env).outcome :=
  rfl

/-- The identifier-extraction loop keeps its accumulator when every scanned
pool is named and none bears the sought name. -/
theorem natPoolIdLoop_no_match {n : String} :
    ∀ {pools : List InboundNatPool} {acc : String},
      (∀ q ∈ pools, ∃ qn, q.name = some qn ∧ qn ≠ n) →
      natPoolIdLoop pools n acc = some acc := by
  intro pools
  induction pools with
  | nil => intro acc h; rfl
  | cons q rest ih =>
      intro acc h
      obtain ⟨qn, hqn, hne⟩ := h q (List.mem_cons_self q rest)
      unfold natPoolIdLoop
      simp only [hqn]
      rw [if_neg hne]
      exact ih (fun p hp => h p (List.mem_cons_of_mem q hp))

/-- C6 counterexample: with a successful submit and completion wait, a
re-fetched aggregate that carries an identifier but absent collection
properties makes create/update dereference a nil pointer — the run ends in a
panic, not in an error return as the claim states (the re-fetch event in the
trace shows the crash happens after the re-fetch). -/
theorem c6_counterexample :
    (resourceArmLoadBalancerNatPoolCreateUpdate sampleD sampleEnvNoProps).outcome =
      .panic ∧
    Event.refetch "rg1" "lb1" ∈
      (resourceArmLoadBalancerNatPoolCreateUpdate sampleD sampleEnvNoProps).events := by
  decide

/-- C6 (amended): after a successful submit and completion wait,
create/update returns an error when the re-fetched aggregate carries no
identifier, and when no element of the desired name is found in the
re-fetched (present, fully named) collection; but when the re-fetched
aggregate's collection properties are absent it crashes on a nil-pointer
dereference instead of returning an error. -/
theorem c6_refetch_failure_modes (d : ResourceData) (env : Env)
    (lb readLB : LoadBalancer) (lbProps : LoadBalancerProps)
    (pools : List InboundNatPool) (newNatPool : InboundNatPool)
    (rg lbName : String)
    (h1 : env.retrieve = .found lb)
    (h2 : lb.props = some lbProps)
    (h3 : lbProps.inboundNatPools = some pools)
    (h4 : expandAzureRmLoadBalancerNatPool d lb = .ok newNatPool)
    (h5 : resourceGroupAndLBNameFromId d.loadbalancerId = .ok (rg, lbName))
    (h6 : env.submitResult = .ok ())
    (h7 : env.waitResult = .ok ())
    (h8 : env.refetchResult = .ok readLB) :
    (readLB.id = none →
      (resourceArmLoadBalancerNatPoolCreateUpdate d env).outcome =
        .err ("Cannot read LoadBalancer ID")) ∧
    (∀ i rProps rPools, readLB.id = some i → readLB.props = some rProps →
      rProps.inboundNatPools = some rPools →
      (∀ q ∈ rPools, ∃ qn, q.name = some qn ∧ qn ≠ d.name) →
      (resourceArmLoadBalancerNatPoolCreateUpdate d env).outcome =
        .err ("Cannot find created LoadBalancer NAT Pool ID")) ∧
    (∀ i, readLB.id = some i → readLB.props = none →
      (resourceArmLoadBalancerNatPoolCreateUpdate d env).outcome = .panic) := by
  refine ⟨?_, ?_, ?_⟩
  · intro hid
    rw [cu_outcome_eq]
    unfold cuBody
    simp only [h1, h4, h2, h3, h5, h6, h7, h8, hid]
  · intro i rProps rPools hid hprops hpools hnames
    rw [cu_outcome_eq]
    unfold cuBody
    simp only [h1, h4, h2, h3, h5, h6, h7, h8, hid, hprops, hpools,
      natPoolIdLoop_no_match hnames]
    simp
  · intro i hid hprops
    rw [cu_outcome_eq]
    unfold cuBody
    simp only [h1, h4, h2, h3, h5, h6, h7, h8, hid, hprops]

/-- Witness for the amended C6: the three re-fetch shapes at concrete
environments — missing identifier, missing element, absent properties. -/
theorem c6_refetch_failure_modes_witness :
    (resourceArmLoadBalancerNatPoolCreateUpdate sampleD sampleEnvNoId).outcome =
      .err ("Cannot read LoadBalancer ID") ∧
    (resourceArmLoadBalancerNatPoolCreateUpdate sampleD sampleEnvNoMatch).outcome =
      .err ("Cannot find created LoadBalancer NAT Pool ID") ∧
    (resourceArmLoadBalancerNatPoolCreateUpdate sampleD sampleEnvNoProps).outcome =
      .panic :=
  ⟨(c6_refetch_failure_modes sampleD sampleEnvNoId sampleLB sampleReadLBNoId
      { inboundNatPools := some [], frontendIPConfigurations := some [sampleFeip] }
      [] samplePool "rg1" "lb1" rfl rfl rfl (by decide) (by decide) rfl rfl rfl).1 rfl,
   (c6_refetch_failure_modes sampleD sampleEnvNoMatch sampleLB sampleReadLBNoMatch
      { inboundNatPools := some [], frontendIPConfigurations := some [sampleFeip] }
      [] samplePool "rg1" "lb1" rfl rfl rfl (by decide) (by decide) rfl rfl rfl).2.1
     sampleLbId
     { inboundNatPools := some [sampleOtherPool]
       frontendIPConfigurations := some [sampleFeip] }
     [sampleOtherPool] rfl rfl rfl
     (by
       intro q hq
       simp only [List.mem_singleton] at hq
       subst hq
       exact ⟨"other", rfl, by decide⟩),
   (c6_refetch_failure_modes sampleD sampleEnvNoProps sampleLB sampleReadLBNoProps
      { inboundNatPools := some [], frontendIPConfigurations := some [sampleFeip] }
      [] samplePool "rg1" "lb1" rfl rfl rfl (by decide) (by decide) rfl rfl rfl).2.2
     sampleLbId rfl rfl⟩

/-- Once submit and completion wait have succeeded, the body's trace starts
with fetch, submit, wait-completion, re-fetch, in that order. -/
theorem cuBody_events_prefix {d : ResourceData} {env : Env} {lb : LoadBalancer}
    {lbProps : LoadBalancerProps} {pools : List InboundNatPool}
    {newNatPool : InboundNatPool} {rg lbName : String}
    (h1 : env.retrieve = .found lb)
    (h2 : lb.props = some lbProps)
    (h3 : lbProps.inboundNatPools = some pools)
    (h4 : expandAzureRmLoadBalancerNatPool d lb = .ok newNatPool)
    (h5 : resourceGroupAndLBNameFromId d.loadbalancerId = .ok (rg, lbName))
    (h6 : env.submitResult = .ok ())
    (h7 : env.waitResult = .ok ()) :
    ∃ rest, (cuBody d env).events = evsThroughRefetch d rg lbName ++ rest := by
  unfold cuBody
  simp only [h1, h4, h2, h3, h5, h6, h7]
  repeat' split
  all_goals exact ⟨_, rfl⟩

/-- C7 counterexample: a fully successful run's whole trace.  The
provisioning-state polling (`pollState`, the `StateChangeConf` with pending
set Accepted/Updating and target Succeeded) occurs at position 5, strictly
after the re-fetch at position 4 that extracts the assigned identifier — not
between the submit and the re-fetch as the claim states.  The wait between
submit and re-fetch is the future's completion wait, a different step. -/
theorem c7_counterexample :
    (resourceArmLoadBalancerNatPoolCreateUpdate sampleD sampleEnv).outcome = .ok ∧
    (resourceArmLoadBalancerNatPoolCreateUpdate sampleD sampleEnv).events =
      [.lock sampleLbId, .fetch sampleLbId, .submit "rg1" "lb1", .waitCompletion,
        .refetch "rg1" "lb1", .pollState, .fetch sampleLbId, .unlock sampleLbId] ∧
    List.indexOf (Event.refetch "rg1" "lb1")
        (resourceArmLoadBalancerNatPoolCreateUpdate sampleD sampleEnv).events <
      List.indexOf Event.pollState
        (resourceArmLoadBalancerNatPoolCreateUpdate sampleD sampleEnv).events := by
  decide

/-- C7 (amended): in any run that reaches a successful submit and completion
wait, the first five events are lock, fetch, submit, completion wait,
re-fetch, in that order — so the provisioning-state polling of the pending
set Accepted/Updating toward Succeeded, when it happens at all, happens only
after the re-fetch that extracts the assigned identifier, not before it. -/
theorem c7_poll_after_refetch (d : ResourceData) (env : Env)
    (lb : LoadBalancer) (lbProps : LoadBalancerProps)
    (pools : List InboundNatPool) (newNatPool : InboundNatPool)
    (rg lbName : String)
    (h1 : env.retrieve = .found lb)
    (h2 : lb.props = some lbProps)
    (h3 : lbProps.inboundNatPools = some pools)
    (h4 : expandAzureRmLoadBalancerNatPool d lb = .ok newNatPool)
    (h5 : resourceGroupAndLBNameFromId d.loadbalancerId = .ok (rg, lbName))
    (h6 : env.submitResult = .ok ())
    (h7 : env.waitResult = .ok ()) :
    (resourceArmLoadBalancerNatPoolCreateUpdate d env).events.take 5 =
      [.lock d.loadbalancerId, .fetch d.loadbalancerId, .submit rg lbName,
        .waitCompletion, .refetch rg lbName] ∧
    ∃ rest, (resourceArmLoadBalancerNatPoolCreateUpdate d env).events =
      [.lock d.loadbalancerId, .fetch d.loadbalancerId, .submit rg lbName,
        .waitCompletion, .refetch rg lbName] ++ rest := by
  obtain ⟨rest, hb⟩ := cuBody_events_prefix h1 h2 h3 h4 h5 h6 h7
  have hev : (resourceArmLoadBalancerNatPoolCreateUpdate d env).events =
      [.lock d.loadbalancerId, .fetch d.loadbalancerId, .submit rg lbName,
        .waitCompletion, .refetch rg lbName] ++ (rest ++ [.unlock d.loadbalancerId]) := by
    rw [cu_events_eq, hb]
    simp [evsThroughRefetch]
  constructor
  · rw [hev]
    exact List.take_left' rfl
  · exact ⟨rest ++ [.unlock d.loadbalancerId], hev⟩

/-- Witness for the amended C7 in the fully successful sample run. -/
theorem c7_poll_after_refetch_witness :
    (resourceArmLoadBalancerNatPoolCreateUpdate sampleD sampleEnv).events.take 5 =
      [.lock sampleLbId, .fetch sampleLbId, .submit "rg1" "lb1",
        .waitCompletion, .refetch "rg1" "lb1"] :=
  (c7_poll_after_refetch sampleD sampleEnv sampleLB
    { inboundNatPools := some [], frontendIPConfigurations := some [sampleFeip] }
    [] samplePool "rg1" "lb1" rfl rfl rfl (by decide) (by decide) rfl rfl).1

/-- The lock wrapper leaves the observed state unchanged. -/
theorem cu_observed_eq (d : ResourceData) (env : Env) :
    (resourceArmLoadBalancerNatPoolCreateUpdate d env).observed = (cuBody d env).observed :=
  rfl

/-- A located element bears the sought name, whatever the aggregate's shape. -/
theorem find_some_name {lb : LoadBalancer} {n : String} {ex : InboundNatPool} {i : Nat}
    (h : findLoadBalancerNatPoolByName lb n = some (ex, i)) : ex.name = some n := by
  unfold findLoadBalancerNatPoolByName at h
  split at h
  · exact absurd h (by simp)
  · split at h
    · exact absurd h (by simp)
    · obtain ⟨k, _, _, hname⟩ := locatePool_eq_some h
      exact hname

/-- The builder's output when the supplied frontend-IP-configuration name
resolves against the sibling collection. -/
theorem expand_with_feip {d : ResourceData} {lb : LoadBalancer} {rule : FrontendIPConfig}
    (hne : d.frontendIpConfigurationName ≠ "")
    (hf : findLoadBalancerFrontEndIpConfigurationByName lb d.frontendIpConfigurationName
      = some rule) :
    expandAzureRmLoadBalancerNatPool d lb = .ok (builtPool d rule) := by
  unfold expandAzureRmLoadBalancerNatPool builtPool builtProps
  rw [if_pos hne]
  simp only [hf]

/-- C8: for a valid desired state, a successful create/update against a
consistent remote (the re-fetched and re-read aggregate reflect the submitted
element, with an assigned identifier whose path parses back to the desired
name, and a frontend-IP-configuration identifier that parses back to its
name) ends successfully with every observed field equal to the submitted
desired field — the round trip is the identity on name, protocol, both
frontend ports, backend port and frontend-IP-configuration name. -/
theorem c8_round_trip (d : ResourceData) (env : Env)
    (lb lb2 readLB : LoadBalancer) (lbProps rRead : LoadBalancerProps)
    (pools rPools : List InboundNatPool)
    (rule : FrontendIPConfig) (fid rid0 pid : String)
    (ppid fpid : ParsedId) (config : InboundNatPool) (k : Nat)
    (rg lbName : String)
    (h1 : env.retrieve = .found lb)
    (h2 : lb.props = some lbProps)
    (h3 : lbProps.inboundNatPools = some pools)
    (hne : d.frontendIpConfigurationName ≠ "")
    (hfeip : findLoadBalancerFrontEndIpConfigurationByName lb d.frontendIpConfigurationName
      = some rule)
    (hfid : rule.id = some fid)
    (h5 : resourceGroupAndLBNameFromId d.loadbalancerId = .ok (rg, lbName))
    (h6 : env.submitResult = .ok ())
    (h7 : env.waitResult = .ok ())
    (h8 : env.refetchResult = .ok readLB)
    (h9 : readLB.id = some rid0)
    (h10 : readLB.props = some rRead)
    (h11 : rRead.inboundNatPools = some rPools)
    (h12 : natPoolIdLoop rPools d.name ("") = some pid)
    (h13 : pid ≠ "")
    (h14 : env.pollResult = .ok ())
    (h15 : env.readRetrieve = .found lb2)
    (h16 : parseAzureResourceID pid = .ok ppid)
    (h17 : ppid.get ("inboundNatPools") = d.name)
    (h18 : findLoadBalancerNatPoolByName lb2 d.name = some (config, k))
    (h19 : config.props = some (builtProps d rule))
    (h20 : parseAzureResourceID fid = .ok fpid)
    (h21 : fpid.get ("frontendIPConfigurations") = d.frontendIpConfigurationName)
    (hps : 0 ≤ d.frontendPortStart ∧ d.frontendPortStart < 65536)
    (hpe : 0 ≤ d.frontendPortEnd ∧ d.frontendPortEnd < 65536)
    (hbp : 0 ≤ d.backendPort ∧ d.backendPort < 65536) :
    (resourceArmLoadBalancerNatPoolCreateUpdate d env).outcome = .ok ∧
    (resourceArmLoadBalancerNatPoolCreateUpdate d env).observed =
      { name := some d.name
        resourceGroup := some ppid.resourceGroup
        protocol := some d.protocol
        frontendPortStart := some d.frontendPortStart
        frontendPortEnd := some d.frontendPortEnd
        backendPort := some d.backendPort
        frontendIpConfigurationName := some d.frontendIpConfigurationName
        frontendIpConfigurationId := some fid } := by
  have hexp := expand_with_feip hne hfeip
  have hcfg : config.name = some d.name := find_some_name h18
  have e1 : fromInt32 d.frontendPortStart = d.frontendPortStart :=
    fromInt32_eq_self (by omega) (by omega)
  have e2 : fromInt32 d.frontendPortEnd = d.frontendPortEnd :=
    fromInt32_eq_self (by omega) (by omega)
  have e3 : fromInt32 d.backendPort = d.backendPort :=
    fromInt32_eq_self (by omega) (by omega)
  constructor
  · rw [cu_outcome_eq]
    unfold cuBody
    simp only [h1, hexp, h2, h3, h5, h6, h7, h8, h9, h10, h11, h12, if_neg h13, h14]
    unfold resourceArmLoadBalancerNatPoolRead
    simp only [ResourceData.setId, h16, h15, h17, h18, h19, builtProps, hfid, h20]
  · rw [cu_observed_eq]
    unfold cuBody
    simp only [h1, hexp, h2, h3, h5, h6, h7, h8, h9, h10, h11, h12, if_neg h13, h14]
    unfold resourceArmLoadBalancerNatPoolRead
    simp only [ResourceData.setId, h16, h15, h17, h18, h19, builtProps, hfid, h20]
    simp only [obsProps, obsBase]
    simp [hcfg, h21, e1, e2, e3]

/-- Witness for C8: the fully successful, consistent sample run reads back
exactly the desired fields. -/
theorem c8_round_trip_witness :
    (resourceArmLoadBalancerNatPoolCreateUpdate sampleD sampleEnv).outcome = .ok ∧
    (resourceArmLoadBalancerNatPoolCreateUpdate sampleD sampleEnv).observed =
      { name := some ("pool1")
        resourceGroup := some ("rg1")
        protocol := some ("Tcp")
        frontendPortStart := some 50000
        frontendPortEnd := some 50100
        backendPort := some 22
        frontendIpConfigurationName := some ("feip1")
        frontendIpConfigurationId := some sampleFeipId } :=
  c8_round_trip sampleD sampleEnv sampleLB sampleReadLB sampleReadLB
    { inboundNatPools := some [], frontendIPConfigurations := some [sampleFeip] }
    { inboundNatPools := some [samplePoolAssigned]
      frontendIPConfigurations := some [sampleFeip] }
    [] [samplePoolAssigned] sampleFeip sampleFeipId sampleLbId samplePoolId
    samplePoolParsedId sampleFeipParsedId samplePoolAssigned 0 "rg1" "lb1"
    rfl rfl rfl (by decide) (by decide) rfl (by decide) rfl rfl rfl rfl rfl
    rfl (by decide) (by decide) rfl rfl (by decide) (by decide) (by decide)
    (by decide) (by decide) (by decide) (by decide) (by decide) (by decide)

end NatPool
